import Mathlib

/-!
Verification development for the evacuation-route planning engine
(`app/utils.py`, `app/engine.py`).

The Python source is shallowly embedded:

* geographic coordinates that appear in the data (GeoJSON numbers, query
  parameters) are modelled as rationals `ℚ` (every IEEE float is a rational);
* distances and edge weights, produced by trigonometric functions, are
  modelled as exact reals `ℝ`;
* the `networkx` graph is modelled as an explicit structure: a node list in
  insertion order plus an association list from unordered vertex pairs to
  edge-attribute records, with last-write-wins overwrite on duplicate pairs;
* the geometric predicate `shapely.geometry.LineString.intersects` is an
  external library oracle: engine operations are parametric in a Boolean
  predicate `(segment, polygon) → Bool`; concrete states use an executable
  bounding-box instance on axis-aligned configurations where it agrees with
  true segment/polygon intersection;
* `networkx.astar_path` is external library code and is modelled from the
  spec (see `astar_path` below);
* methods mutating `self` are state-passing functions on a `RoutePlanner`
  record; `find_route`, which only reads `self`, is additionally wrapped as
  an explicit state-passing function to express idempotence.
-/

/-! ## `math.atan2` and `utils.haversine_distance` -/

/-- Embedding of `math.atan2 y x` (quadrant-correct arctangent; the signed-zero
distinctions of IEEE floats are immaterial here because the reals collapse
`0.0` and `-0.0`). -/
noncomputable def atan2 (y x : ℝ) : ℝ :=
  if 0 < x then Real.arctan (y / x)
  else if x < 0 then
    if 0 ≤ y then Real.arctan (y / x) + Real.pi else Real.arctan (y / x) - Real.pi
  else
    if 0 < y then Real.pi / 2 else if y < 0 then -(Real.pi / 2) else 0

/-- Embedding of `utils.haversine_distance(lat1, lon1, lat2, lon2)`:
haversine distance in meters on a sphere of radius 6 371 000 m, with
`math.radians x = x * pi / 180` inlined. -/
noncomputable def haversine_distance (lat1 lon1 lat2 lon2 : ℝ) : ℝ :=
  let R : ℝ := 6371000
  let phi1 := lat1 * Real.pi / 180
  let phi2 := lat2 * Real.pi / 180
  let delta_phi := (lat2 - lat1) * Real.pi / 180
  let delta_lambda := (lon2 - lon1) * Real.pi / 180
  let a := Real.sin (delta_phi / 2) ^ 2 +
    Real.cos phi1 * Real.cos phi2 * Real.sin (delta_lambda / 2) ^ 2
  let c := 2 * atan2 (Real.sqrt a) (Real.sqrt (1 - a))
  R * c

/-- The intermediate quantity `a` of the haversine formula, named for proofs. -/
noncomputable def hav_a (lat1 lon1 lat2 lon2 : ℝ) : ℝ :=
  Real.sin ((lat2 - lat1) * Real.pi / 180 / 2) ^ 2 +
    Real.cos (lat1 * Real.pi / 180) * Real.cos (lat2 * Real.pi / 180) *
      Real.sin ((lon2 - lon1) * Real.pi / 180 / 2) ^ 2

lemma haversine_eq (lat1 lon1 lat2 lon2 : ℝ) :
    haversine_distance lat1 lon1 lat2 lon2 =
      6371000 * (2 * atan2 (Real.sqrt (hav_a lat1 lon1 lat2 lon2))
        (Real.sqrt (1 - hav_a lat1 lon1 lat2 lon2))) := rfl

lemma atan2_sin_cos (t : ℝ) (h0 : 0 ≤ t) (h2 : t ≤ Real.pi / 2) :
    atan2 (Real.sin t) (Real.cos t) = t := by
  rcases lt_or_eq_of_le h2 with hlt | heq
  · have hc : 0 < Real.cos t :=
      Real.cos_pos_of_mem_Ioo ⟨by linarith [Real.pi_pos], hlt⟩
    unfold atan2
    rw [if_pos hc, ← Real.tan_eq_sin_div_cos,
      Real.arctan_tan (by linarith [Real.pi_pos]) hlt]
  · rw [heq, Real.sin_pi_div_two, Real.cos_pi_div_two]
    unfold atan2
    norm_num

/-- On a meridian (equal longitudes) the haversine distance is exactly
`R * |Δlat| * π / 180`, for latitude differences of at most 180 degrees. -/
lemma haversine_meridian (lat1 lat2 lon : ℝ) (h : |lat2 - lat1| ≤ 180) :
    haversine_distance lat1 lon lat2 lon =
      6371000 * (|lat2 - lat1| * Real.pi / 180) := by
  have hπ := Real.pi_pos
  set u : ℝ := (lat2 - lat1) * Real.pi / 180 / 2 with hu
  have habsu : |u| = |lat2 - lat1| * Real.pi / 180 / 2 := by
    rw [hu]
    rw [abs_div, abs_div, abs_mul]
    rw [abs_of_pos hπ]
    norm_num
  have husmall : |u| ≤ Real.pi / 2 := by
    rw [habsu]
    have h1 : |lat2 - lat1| * Real.pi ≤ 180 * Real.pi :=
      mul_le_mul_of_nonneg_right h (le_of_lt hπ)
    linarith
  have hu1 : -(Real.pi / 2) ≤ u := by
    have := abs_le.mp husmall
    linarith [this.1]
  have hu2 : u ≤ Real.pi / 2 := (abs_le.mp husmall).2
  have ha : hav_a lat1 lon lat2 lon = Real.sin u ^ 2 := by
    unfold hav_a
    rw [sub_self]
    norm_num
  have hsqrt_a : Real.sqrt (hav_a lat1 lon lat2 lon) = Real.sin |u| := by
    rw [ha, Real.sqrt_sq_eq_abs]
    rcases le_or_lt 0 u with hpos | hneg
    · rw [abs_of_nonneg hpos,
        abs_of_nonneg (Real.sin_nonneg_of_nonneg_of_le_pi hpos (by linarith))]
    · rw [abs_of_neg hneg]
      have hs : Real.sin u ≤ 0 := by
        have : 0 ≤ Real.sin (-u) :=
          Real.sin_nonneg_of_nonneg_of_le_pi (by linarith) (by linarith)
        rw [Real.sin_neg] at this
        linarith
      rw [abs_of_nonpos hs, Real.sin_neg]
  have hsqrt_c : Real.sqrt (1 - hav_a lat1 lon lat2 lon) = Real.cos |u| := by
    rw [ha]
    have h1 : 1 - Real.sin u ^ 2 = Real.cos u ^ 2 := by
      have := Real.sin_sq_add_cos_sq u
      linarith
    rw [h1, Real.sqrt_sq_eq_abs,
      abs_of_nonneg (Real.cos_nonneg_of_mem_Icc ⟨hu1, hu2⟩), Real.cos_abs]
  rw [haversine_eq, hsqrt_a, hsqrt_c,
    atan2_sin_cos |u| (abs_nonneg u) (by rw [habsu]; linarith [husmall, habsu])]
  rw [habsu]
  ring

/-- The haversine distance is symmetric in its two points. -/
lemma haversine_symm (lat1 lon1 lat2 lon2 : ℝ) :
    haversine_distance lat1 lon1 lat2 lon2 =
      haversine_distance lat2 lon2 lat1 lon1 := by
  have ha : hav_a lat1 lon1 lat2 lon2 = hav_a lat2 lon2 lat1 lon1 := by
    unfold hav_a
    have h1 : (lat1 - lat2) * Real.pi / 180 / 2 =
        -((lat2 - lat1) * Real.pi / 180 / 2) := by ring
    have h2 : (lon1 - lon2) * Real.pi / 180 / 2 =
        -((lon2 - lon1) * Real.pi / 180 / 2) := by ring
    rw [h1, h2, Real.sin_neg, Real.sin_neg]
    ring
  rw [haversine_eq, haversine_eq, ha]

/-- Distance from a point to itself is zero. -/
lemma haversine_self (lat lon : ℝ) : haversine_distance lat lon lat lon = 0 := by
  rw [haversine_meridian lat lat lon (by norm_num)]
  simp

/-! ## Data model: nodes, edge attributes, the `networkx` graph -/

/-- A graph vertex: an exact `(longitude, latitude)` coordinate pair, as in the
source where `networkx` node keys are the coordinate tuples themselves. -/
abbrev Node : Type := ℚ × ℚ

/-- The attribute record attached to every edge by
`RoutePlanner._add_linestring_to_graph`: `weight`, `geometry` (the two-point
`LineString` between the endpoint coordinates), `segment_id`, `is_flooded`. -/
structure EdgeData where
  weight : ℝ
  geometry : Node × Node
  segment_id : String
  is_flooded : Bool

/-- Whether the stored endpoint pair `(a, b)` is the unordered pair `{u, v}`,
matching `networkx`'s undirected edge lookup. -/
def pair_matches (u v a b : Node) : Bool :=
  (decide (a = u) && decide (b = v)) || (decide (a = v) && decide (b = u))

/-- An undirected `networkx.Graph`: nodes in insertion order, and one attribute
record per unordered vertex pair. -/
structure Graph where
  nodes : List Node
  edges : List (Node × Node × EdgeData)

/-- `add_edge` implicitly adds missing endpoints as nodes, in order. -/
def Graph.add_node (g : Graph) (n : Node) : Graph :=
  if n ∈ g.nodes then g else { g with nodes := g.nodes ++ [n] }

/-- `Graph.add_edge(u, v, **attrs)`: inserts the endpoints as needed and
binds the unordered pair `{u, v}` to `e`, overwriting any previous record for
the same pair (all attribute keys are always supplied, so the `networkx`
attribute-dict update amounts to full replacement). -/
def Graph.add_edge (g : Graph) (u v : Node) (e : EdgeData) : Graph :=
  let g1 := (g.add_node u).add_node v
  if g1.edges.any (fun t => pair_matches u v t.1 t.2.1) then
    let replaced := g1.edges.map
      (fun t => if pair_matches u v t.1 t.2.1 then (t.1, t.2.1, e) else t)
    { g1 with edges := replaced }
  else
    { g1 with edges := g1.edges ++ [(u, v, e)] }

/-- `Graph.get_edge_data(u, v)`: the attribute record of the unordered pair
`{u, v}`, or `none` when the edge is absent. -/
def Graph.get_edge_data (g : Graph) (u v : Node) : Option EdgeData :=
  (g.edges.find? (fun t => pair_matches u v t.1 t.2.1)).map (fun t => t.2.2)

/-- The neighbors of `u`: the other endpoint of every incident edge. -/
def Graph.neighbors (g : Graph) (u : Node) : List Node :=
  g.edges.filterMap (fun t =>
    if t.1 = u then some t.2.1 else if t.2.1 = u then some t.1 else none)

/-- A hazard polygon: an ordered ring of `(longitude, latitude)` coordinates
(`shapely.geometry.Polygon`). Severity metadata is ignored by the engine. -/
structure Polygon where
  ring : List Node

/-- A feature geometry from the road GeoDataFrame: the engine handles
`LineString` and `MultiLineString` and skips every other geometry type. -/
inductive Geometry where
  | lineString (coords : List Node)
  | multiLineString (parts : List (List Node))
  | other

/-- One executable instance of the external `shapely` intersection oracle:
axis-aligned bounding-box overlap between a two-point segment and a polygon
ring.  On the axis-aligned rectangles and segments used in the concrete states
below this coincides with true segment/polygon intersection (touching or
crossing counts, endpoint containment counts).  The engine operations are
parametric in the oracle; this instance only realizes concrete states. -/
def bbox_intersects (seg : Node × Node) (z : Polygon) : Bool :=
  match z.ring with
  | [] => false
  | r :: rs =>
    let lons := rs.map Prod.fst
    let lats := rs.map Prod.snd
    let zMinLon := lons.foldl min r.1
    let zMaxLon := lons.foldl max r.1
    let zMinLat := lats.foldl min r.2
    let zMaxLat := lats.foldl max r.2
    let sMinLon := min seg.1.1 seg.2.1
    let sMaxLon := max seg.1.1 seg.2.1
    let sMinLat := min seg.1.2 seg.2.2
    let sMaxLat := max seg.1.2 seg.2.2
    decide (sMinLon ≤ zMaxLon) && decide (zMinLon ≤ sMaxLon) &&
      decide (sMinLat ≤ zMaxLat) && decide (zMinLat ≤ sMaxLat)

/-! ## The `RoutePlanner` state and the Builder/Overlay operations -/

/-- The mutable state of an `app.engine.RoutePlanner` instance: the GeoJSON
path given to `__init__`, the loaded road data (`self.gdf`, `none` before
`load_road_network` succeeds), the graph (`none` before `build_graph`), and
the current hazard-zone list. -/
structure RoutePlanner where
  geojson_path : String
  gdf : Option (List Geometry)
  graph : Option Graph
  flood_zones : List Polygon

/-- `RoutePlanner.__init__(geojson_path)`. -/
def RoutePlanner.init (geojson_path : String) : RoutePlanner :=
  { geojson_path := geojson_path, gdf := none, graph := none, flood_zones := [] }

/-- `RoutePlanner.load_road_network()`: reads the GeoJSON file.  File IO is
external; the parsed contents (or a read failure) are supplied as the
`contents` argument.  Returns the updated state and the success flag. -/
def RoutePlanner.load_road_network (self : RoutePlanner)
    (contents : Option (List Geometry)) : RoutePlanner × Bool :=
  match contents with
  | some feats => ({ self with gdf := some feats }, true)
  | none => (self, false)

/-- `RoutePlanner._add_linestring_to_graph`, inner loop: for each consecutive
coordinate pair `(coords[i], coords[i+1])` insert an edge whose `weight` is
`haversine_distance(start[1], start[0], end[1], end[0])`, whose `geometry` is
the two-point `LineString`, whose `segment_id` is `"{feature_id}_{i}"`, and
whose `is_flooded` is `False`; returns the new graph and the number of edges
added. -/
noncomputable def add_segments (fid : String) :
    Graph → List Node → ℕ → Graph × ℕ
  | g, a :: b :: rest, i =>
    let distance := haversine_distance (a.2 : ℝ) (a.1 : ℝ) (b.2 : ℝ) (b.1 : ℝ)
    let g1 := g.add_edge a b
      { weight := distance
        geometry := (a, b)
        segment_id := fid ++ "_" ++ toString i
        is_flooded := false }
    let r := add_segments fid g1 (b :: rest) (i + 1)
    (r.1, r.2 + 1)
  | g, _, _ => (g, 0)

/-- `RoutePlanner._add_linestring_to_graph(linestring, feature_id)`. -/
noncomputable def add_linestring_to_graph (g : Graph) (coords : List Node)
    (fid : String) : Graph × ℕ :=
  add_segments fid g coords 0

/-- The loop body of `RoutePlanner.build_graph`: features are enumerated with
their positional index `idx` (the `iterrows` index of a default `RangeIndex`),
each `LineString` is expanded directly and each `MultiLineString` part is
expanded independently with the same feature identifier. -/
noncomputable def build_graph_features : List Geometry → ℕ → Graph → Graph
  | [], _, g => g
  | f :: rest, idx, g =>
    let g1 := match f with
      | Geometry.lineString coords => (add_linestring_to_graph g coords (toString idx)).1
      | Geometry.multiLineString parts =>
        parts.foldl (fun gg coords => (add_linestring_to_graph gg coords (toString idx)).1) g
      | Geometry.other => g
    build_graph_features rest (idx + 1) g1

/-- `RoutePlanner.build_graph()`: fails (returns `False`) only when
`load_road_network` has not populated `self.gdf`; otherwise rebuilds
`self.graph` from scratch and returns `True` — even when the feature list is
empty, in which case the graph is empty. -/
noncomputable def RoutePlanner.build_graph (self : RoutePlanner) :
    RoutePlanner × Bool :=
  match self.gdf with
  | none => (self, false)
  | some feats =>
    ({ self with graph := some (build_graph_features feats 0 ⟨[], []⟩) }, true)

/-- `RoutePlanner._mark_flooded_edges()`, parametric in the `shapely`
intersection oracle: a no-op when the zone list is empty; otherwise every edge
whose stored `geometry` intersects some zone gets `is_flooded := true` and
`weight := weight * 100` — multiplying the *current* weight, not the base
distance. -/
def mark_flooded_edges (intersects : Node × Node → Polygon → Bool)
    (zones : List Polygon) (g : Graph) : Graph :=
  if zones.isEmpty then g
  else
    let marked := g.edges.map (fun t =>
      if zones.any (fun z => intersects t.2.2.geometry z) then
        (t.1, t.2.1,
          { t.2.2 with is_flooded := true, weight := t.2.2.weight * 100 })
      else t)
    { g with edges := marked }

/-- `RoutePlanner.set_flood_zones(flood_zones)`: stores the zone list and runs
`_mark_flooded_edges`.  (When `self.graph` is `None` the Python call raises;
the model leaves the absent graph untouched, which is the same observable
graph state.) -/
def RoutePlanner.set_flood_zones (intersects : Node × Node → Polygon → Bool)
    (self : RoutePlanner) (zones : List Polygon) : RoutePlanner :=
  { self with
    flood_zones := zones
    graph := self.graph.map (mark_flooded_edges intersects zones) }

/-- The `base_distance` of the data model (§3 of the spec): the true geodesic
length of the stored segment geometry.  The implementation does not store it
separately; it is recomputed from the edge's `geometry` attribute. -/
noncomputable def base_distance (e : EdgeData) : ℝ :=
  haversine_distance (e.geometry.1.2 : ℝ) (e.geometry.1.1 : ℝ)
    (e.geometry.2.2 : ℝ) (e.geometry.2.1 : ℝ)

/-! ## Nearest-vertex locator -/

/-- The distance computed by `_find_nearest_node` for a candidate node: the
node key is unpacked as `(node_lon, node_lat)` and the haversine distance is
taken between `(lat, lon)` and `(node_lat, node_lon)`. -/
noncomputable def query_distance (lat lon : ℚ) (node : Node) : ℝ :=
  haversine_distance (lat : ℝ) (lon : ℝ) (node.2 : ℝ) (node.1 : ℝ)

/-- One iteration of the `_find_nearest_node` loop.  The Python loop starts
from `min_distance = float('inf')`, which every (finite) haversine value
beats, so the first node always replaces the empty accumulator; afterwards a
node replaces the accumulator exactly when its distance is strictly smaller,
so ties keep the earlier node. -/
noncomputable def nearest_step (lat lon : ℚ) (acc : Option (Node × ℝ))
    (node : Node) : Option (Node × ℝ) :=
  match acc with
  | none => some (node, query_distance lat lon node)
  | some best =>
    if query_distance lat lon node < best.2 then
      some (node, query_distance lat lon node)
    else some best

/-- `RoutePlanner._find_nearest_node(lat, lon)`: exhaustive scan over
`self.graph.nodes()` in enumeration order. -/
noncomputable def find_nearest_node (g : Graph) (lat lon : ℚ) : Option Node :=
  (g.nodes.foldl (nearest_step lat lon) none).map Prod.fst

/-! ## Route metrics -/

/-- The consecutive pairs `(path[i], path[i+1])` iterated by the metric
loops. -/
def path_pairs : List Node → List (Node × Node)
  | a :: b :: rest => (a, b) :: path_pairs (b :: rest)
  | _ => []

/-- `RoutePlanner._calculate_path_length(path)`: sums, for each consecutive
pair that has edge data, the edge's `weight` — divided by 100 first when the
edge is flagged `is_flooded` (the code reconstructs the base distance by
dividing the penalty back out of the search weight).  Pairs without edge data
contribute nothing. -/
noncomputable def calculate_path_length (g : Graph) (path : List Node) : ℝ :=
  (path_pairs path).foldl (fun total uv =>
    match g.get_edge_data uv.1 uv.2 with
    | some e => total + (if e.is_flooded then e.weight / 100 else e.weight)
    | none => total) 0

/-- `RoutePlanner._count_flooded_segments(path)`: counts consecutive pairs
whose edge data exists and is flagged `is_flooded`. -/
def count_flooded_segments (g : Graph) (path : List Node) : ℕ :=
  (path_pairs path).foldl (fun count uv =>
    match g.get_edge_data uv.1 uv.2 with
    | some e => if e.is_flooded then count + 1 else count
    | none => count) 0

/-! ## Shortest-path search (external library code, modelled from the spec) -/

/-- The fuel-bounded worklist loop of the modelled search: entries carry their
endpoint together with the reversed vertex path from the source. -/
def search_loop (g : Graph) (t : Node) :
    ℕ → List Node → List (Node × List Node) → Option (List Node)
  | 0, _, _ => none
  | _ + 1, _, [] => none
  | fuel + 1, visited, (u, revPath) :: rest =>
    if u = t then some revPath.reverse
    else if u ∈ visited then search_loop g t fuel visited rest
    else
      search_loop g t fuel (u :: visited)
        (rest ++ (g.neighbors u).map (fun v => (v, v :: revPath)))

/-- Modelled from the spec: the engine delegates the search step to the
external library routine `networkx.astar_path` (a heuristic best-first search
over `search_weight`), which is not part of this repository.  Per §4.5 the
search must be deterministic, must terminate, must return a vertex path
joined by graph edges from the source to the target when one exists, and must
signal `NetworkXNoPath` (here `none`) when the target is unreachable; §4.5
explicitly declines to promise cost-optimality once penalties are active, and
no claim below depends on which connecting path is returned.  The fuel bounds
the number of worklist pops; it exceeds the total number of entries a full
traversal can ever enqueue. -/
def astar_path (g : Graph) (s t : Node) : Option (List Node) :=
  search_loop g t ((g.nodes.length + 1) * (2 * g.edges.length + 1) + 1)
    [] [(s, [s])]

/-! ## `find_route` -/

/-- The payload of a successful route: the coordinate sequence (the source
re-packs the vertex path through an identity comprehension), the true
distance, the vertex count and the flooded-segment count.  The dict layer
additionally rounds `distance_meters` to two decimals for presentation; the
model carries the unrounded total. -/
structure RouteSuccess where
  coordinates : List Node
  distance_meters : ℝ
  nodes_count : ℕ
  flooded_segments : ℕ

/-- The observable result of `RoutePlanner.find_route`: the success
`FeatureCollection` dict, or the metadata-only dict produced on
`NetworkXNoPath` (whose `metadata.status` is the string `"error"`). A Python
`None` return is modelled by `Option.none` around this type. -/
inductive RouteOutput where
  | success (data : RouteSuccess)
  | errorNoPath (message : String)

/-- The `metadata.status` string of a `find_route` result dict. -/
def RouteOutput.status : RouteOutput → String
  | RouteOutput.success _ => "success"
  | RouteOutput.errorNoPath _ => "error"

/-- `RoutePlanner.find_route(start_lat, start_lon, end_lat, end_lon)`:
returns `None` when the graph was never built or when nearest-node resolution
fails (empty graph); returns the metadata-only `"error"` dict when the search
raises `NetworkXNoPath`; otherwise assembles the success dict from the vertex
path.  The `try`/`except Exception` wrapper returns `None` on any other
internal fault; the embedding is total, so that branch has no inhabitant
here. -/
noncomputable def RoutePlanner.find_route (self : RoutePlanner)
    (start_lat start_lon end_lat end_lon : ℚ) : Option RouteOutput :=
  match self.graph with
  | none => none
  | some g =>
    match find_nearest_node g start_lat start_lon,
        find_nearest_node g end_lat end_lon with
    | some start_node, some end_node =>
      match astar_path g start_node end_node with
      | some path =>
        some (RouteOutput.success
          { coordinates := path
            distance_meters := calculate_path_length g path
            nodes_count := path.length
            flooded_segments := count_flooded_segments g path })
      | none => some (RouteOutput.errorNoPath "Nie znaleziono trasy między punktami")
    | _, _ => none

/-- `find_route` as an explicit state-passing method: the Python method reads
`self.graph` and `self.flood_zones` but performs no assignment to `self`, so
the outgoing state is the incoming one. -/
noncomputable def RoutePlanner.find_route_st (self : RoutePlanner)
    (start_lat start_lon end_lat end_lon : ℚ) :
    Option RouteOutput × RoutePlanner :=
  (self.find_route start_lat start_lon end_lat end_lon, self)

/-! ## Spec-side definitions used for refinement comparison -/

/-- The §3 weighting invariant for a single edge: `search_weight` equals
`base_distance` when not flooded and `base_distance × PENALTY_FACTOR`
(PENALTY_FACTOR = 100) when flooded. -/
def weight_invariant (e : EdgeData) : Prop :=
  e.weight = if e.is_flooded then base_distance e * 100 else base_distance e

/-- The §3 weighting invariant for every edge of a graph. -/
def graph_weight_invariant (g : Graph) : Prop :=
  ∀ t ∈ g.edges, weight_invariant t.2.2

/-- Stated from the spec's words (§4.5 step 4): the true distance of a path is
the sum, over each traversed edge, of that edge's `base_distance` taken
directly. -/
noncomputable def spec_true_distance (g : Graph) (path : List Node) : ℝ :=
  (path_pairs path).foldl (fun total uv =>
    match g.get_edge_data uv.1 uv.2 with
    | some e => total + base_distance e
    | none => total) 0

/-- Stated from the spec's words (§4.5 step 4): the hazardous-segment count of
a path is the number of traversed edges with `is_flooded == true`. -/
def spec_hazard_count (g : Graph) (path : List Node) : ℕ :=
  ((path_pairs path).filter (fun uv =>
    match g.get_edge_data uv.1 uv.2 with
    | some e => e.is_flooded
    | none => false)).length

/-- Edge-joined reachability in a graph: the reflexive-transitive closure of
"an edge exists between these vertices". -/
def Reachable (g : Graph) : Node → Node → Prop :=
  Relation.ReflTransGen (fun u v => (g.get_edge_data u v).isSome = true)

/-! ## Concrete states used by counterexamples and witnesses

All fixture vertices sit on the meridian `longitude = 0`, so every distance
the locator compares is `6371000 * |Δlat| * π / 180` by
`haversine_meridian`. -/

def nA : Node := (0, 0)

def nB : Node := (0, 1)

def nC : Node := (0, 10)

def nD : Node := (0, 11)

/-- One road: the single segment `nA — nB`. -/
def feat_single : List Geometry := [Geometry.lineString [nA, nB]]

/-- Two disconnected roads: `nA — nB` and `nC — nD`. -/
def feat_disc : List Geometry :=
  [Geometry.lineString [nA, nB], Geometry.lineString [nC, nD]]

/-- A hazard rectangle covering the segment `nA — nB`. -/
def zone_cover : Polygon := ⟨[(-1, -1), (1, -1), (1, 2), (-1, 2)]⟩

/-- A hazard rectangle far away from the segment `nA — nB`. -/
def zone_far : Polygon := ⟨[(10, 10), (11, 10), (11, 11), (10, 11)]⟩

noncomputable def g_single : Graph := build_graph_features feat_single 0 ⟨[], []⟩

noncomputable def g_disc : Graph := build_graph_features feat_disc 0 ⟨[], []⟩

noncomputable def g_flood1 : Graph :=
  mark_flooded_edges bbox_intersects [zone_cover] g_single

noncomputable def g_flood2 : Graph :=
  mark_flooded_edges bbox_intersects [zone_cover] g_flood1

noncomputable def g_switch : Graph :=
  mark_flooded_edges bbox_intersects [zone_far] g_flood1

/-- Planner state after loading and building the single-segment network. -/
noncomputable def p_built : RoutePlanner :=
  ((((RoutePlanner.init "data/map_data.geojson").load_road_network
    (some feat_single)).1).build_graph).1

/-- `p_built` after one overlay pass with the covering zone. -/
noncomputable def p_flood1 : RoutePlanner :=
  p_built.set_flood_zones bbox_intersects [zone_cover]

/-- `p_built` after two overlay passes with the same covering zone. -/
noncomputable def p_flood2 : RoutePlanner :=
  p_flood1.set_flood_zones bbox_intersects [zone_cover]

/-- `p_flood1` after a second overlay pass with a disjoint zone set. -/
noncomputable def p_switch : RoutePlanner :=
  p_flood1.set_flood_zones bbox_intersects [zone_far]

/-- Planner state over the disconnected two-road network. -/
noncomputable def p_disc : RoutePlanner :=
  ((((RoutePlanner.init "data/map_data.geojson").load_road_network
    (some feat_disc)).1).build_graph).1

lemma p_built_graph : p_built.graph = some g_single := rfl

lemma p_flood2_graph : p_flood2.graph = some g_flood2 := rfl

lemma p_switch_graph : p_switch.graph = some g_switch := rfl

lemma p_disc_graph : p_disc.graph = some g_disc := rfl

lemma g_single_nodes : g_single.nodes = [nA, nB] := by decide

lemma g_flood2_nodes : g_flood2.nodes = [nA, nB] := by decide

lemma g_disc_nodes : g_disc.nodes = [nA, nB, nC, nD] := by decide

lemma astar_single_self : astar_path g_single nA nA = some [nA] := by decide

lemma astar_flood2_route : astar_path g_flood2 nA nB = some [nA, nB] := by decide

lemma astar_disc_none : astar_path g_disc nA nC = none := by decide

/-! ## Evaluating the locator on the fixture states

Every fixture node has longitude 0, so `haversine_meridian` turns each
comparison made by the scan into a rational comparison scaled by `π`. -/

lemma query_distance_val (lat q : ℚ) (n : Node) (hn : n = (0, q)) (d : ℝ)
    (hd : |(q : ℝ) - (lat : ℝ)| = d) (hle : d ≤ 180) :
    query_distance lat 0 n = 6371000 * (d * Real.pi / 180) := by
  subst hn
  have hm := haversine_meridian (lat : ℝ) (q : ℝ) ((0 : ℚ) : ℝ)
    (by rw [hd]; exact hle)
  show haversine_distance (lat : ℝ) ((0 : ℚ) : ℝ) (q : ℝ) ((0 : ℚ) : ℝ) =
    6371000 * (d * Real.pi / 180)
  rw [hm, hd]

lemma nearest_step_none (lat lon : ℚ) (n : Node) :
    nearest_step lat lon none n = some (n, query_distance lat lon n) := rfl

lemma nearest_step_keep (lat lon : ℚ) (b : Node × ℝ) (n : Node)
    (h : ¬ query_distance lat lon n < b.2) :
    nearest_step lat lon (some b) n = some b := by
  show (if query_distance lat lon n < b.2 then
    some (n, query_distance lat lon n) else some b) = some b
  rw [if_neg h]

lemma nearest_step_new (lat lon : ℚ) (b : Node × ℝ) (n : Node)
    (h : query_distance lat lon n < b.2) :
    nearest_step lat lon (some b) n = some (n, query_distance lat lon n) := by
  show (if query_distance lat lon n < b.2 then
    some (n, query_distance lat lon n) else some b) =
    some (n, query_distance lat lon n)
  rw [if_pos h]

lemma merid_le (x y : ℝ) (hxy : x ≤ y) :
    6371000 * (x * Real.pi / 180) ≤ 6371000 * (y * Real.pi / 180) := by
  have := Real.pi_pos
  nlinarith

lemma merid_lt (x y : ℝ) (hxy : x < y) :
    6371000 * (x * Real.pi / 180) < 6371000 * (y * Real.pi / 180) := by
  have := Real.pi_pos
  nlinarith

/-- On the two-node fixture, the locator resolves the query at `nA`'s
coordinates to `nA` and the query at `nB`'s coordinates to `nB`. -/
lemma find_nearest_pair (g : Graph) (h : g.nodes = [nA, nB]) :
    find_nearest_node g 0 0 = some nA ∧ find_nearest_node g 1 0 = some nB := by
  have vA0 : query_distance 0 0 nA = 6371000 * ((0 : ℝ) * Real.pi / 180) :=
    query_distance_val 0 0 nA rfl 0 (by norm_num) (by norm_num)
  have vB0 : query_distance 0 0 nB = 6371000 * ((1 : ℝ) * Real.pi / 180) :=
    query_distance_val 0 1 nB rfl 1 (by norm_num) (by norm_num)
  have vA1 : query_distance 1 0 nA = 6371000 * ((1 : ℝ) * Real.pi / 180) :=
    query_distance_val 1 0 nA rfl 1 (by norm_num) (by norm_num)
  have vB1 : query_distance 1 0 nB = 6371000 * ((0 : ℝ) * Real.pi / 180) :=
    query_distance_val 1 1 nB rfl 0 (by norm_num) (by norm_num)
  constructor
  · unfold find_nearest_node
    rw [h]
    show (nearest_step 0 0 (nearest_step 0 0 none nA) nB).map Prod.fst = some nA
    rw [nearest_step_none, nearest_step_keep 0 0 _ _ ?keep]
    case keep =>
      show ¬ query_distance 0 0 nB < query_distance 0 0 nA
      rw [vA0, vB0]
      exact not_lt.mpr (merid_le 0 1 (by norm_num))
    rfl
  · unfold find_nearest_node
    rw [h]
    show (nearest_step 1 0 (nearest_step 1 0 none nA) nB).map Prod.fst = some nB
    rw [nearest_step_none, nearest_step_new 1 0 _ _ ?new]
    case new =>
      show query_distance 1 0 nB < query_distance 1 0 nA
      rw [vA1, vB1]
      exact merid_lt 0 1 (by norm_num)
    rfl

/-- On the four-node fixture, the locator resolves the query at `nA`'s
coordinates to `nA` and the query at `nC`'s coordinates to `nC`. -/
lemma find_nearest_quad (g : Graph) (h : g.nodes = [nA, nB, nC, nD]) :
    find_nearest_node g 0 0 = some nA ∧ find_nearest_node g 10 0 = some nC := by
  have vA0 : query_distance 0 0 nA = 6371000 * ((0 : ℝ) * Real.pi / 180) :=
    query_distance_val 0 0 nA rfl 0 (by norm_num) (by norm_num)
  have vB0 : query_distance 0 0 nB = 6371000 * ((1 : ℝ) * Real.pi / 180) :=
    query_distance_val 0 1 nB rfl 1 (by norm_num) (by norm_num)
  have vC0 : query_distance 0 0 nC = 6371000 * ((10 : ℝ) * Real.pi / 180) :=
    query_distance_val 0 10 nC rfl 10 (by norm_num) (by norm_num)
  have vD0 : query_distance 0 0 nD = 6371000 * ((11 : ℝ) * Real.pi / 180) :=
    query_distance_val 0 11 nD rfl 11 (by norm_num) (by norm_num)
  have vA10 : query_distance 10 0 nA = 6371000 * ((10 : ℝ) * Real.pi / 180) :=
    query_distance_val 10 0 nA rfl 10 (by norm_num) (by norm_num)
  have vB10 : query_distance 10 0 nB = 6371000 * ((9 : ℝ) * Real.pi / 180) :=
    query_distance_val 10 1 nB rfl 9 (by norm_num) (by norm_num)
  have vC10 : query_distance 10 0 nC = 6371000 * ((0 : ℝ) * Real.pi / 180) :=
    query_distance_val 10 10 nC rfl 0 (by norm_num) (by norm_num)
  have vD10 : query_distance 10 0 nD = 6371000 * ((1 : ℝ) * Real.pi / 180) :=
    query_distance_val 10 11 nD rfl 1 (by norm_num) (by norm_num)
  constructor
  · unfold find_nearest_node
    rw [h]
    show (nearest_step 0 0 (nearest_step 0 0 (nearest_step 0 0
      (nearest_step 0 0 none nA) nB) nC) nD).map Prod.fst = some nA
    rw [nearest_step_none,
      nearest_step_keep 0 0 _ _ (by
        show ¬ query_distance 0 0 nB < query_distance 0 0 nA
        rw [vA0, vB0]
        exact not_lt.mpr (merid_le 0 1 (by norm_num))),
      nearest_step_keep 0 0 _ _ (by
        show ¬ query_distance 0 0 nC < query_distance 0 0 nA
        rw [vA0, vC0]
        exact not_lt.mpr (merid_le 0 10 (by norm_num))),
      nearest_step_keep 0 0 _ _ (by
        show ¬ query_distance 0 0 nD < query_distance 0 0 nA
        rw [vA0, vD0]
        exact not_lt.mpr (merid_le 0 11 (by norm_num)))]
    rfl
  · unfold find_nearest_node
    rw [h]
    show (nearest_step 10 0 (nearest_step 10 0 (nearest_step 10 0
      (nearest_step 10 0 none nA) nB) nC) nD).map Prod.fst = some nC
    rw [nearest_step_none,
      nearest_step_new 10 0 _ _ (by
        show query_distance 10 0 nB < query_distance 10 0 nA
        rw [vA10, vB10]
        exact merid_lt 9 10 (by norm_num)),
      nearest_step_new 10 0 _ _ (by
        show query_distance 10 0 nC < query_distance 10 0 nB
        rw [vB10, vC10]
        exact merid_lt 0 9 (by norm_num)),
      nearest_step_keep 10 0 _ _ (by
        show ¬ query_distance 10 0 nD < query_distance 10 0 nC
        rw [vC10, vD10]
        exact not_lt.mpr (merid_le 0 1 (by norm_num)))]
    rfl

/-! ## Correctness of the exhaustive nearest-vertex scan (claim C7) -/

lemma nearest_step_ne_none (lat lon : ℚ) (acc : Option (Node × ℝ)) (n : Node) :
    nearest_step lat lon acc n ≠ none := by
  cases acc with
  | none => simp [nearest_step]
  | some b =>
    show (if query_distance lat lon n < b.2 then
      some (n, query_distance lat lon n) else some b) ≠ none
    split <;> simp

lemma nearest_fold_none (lat lon : ℚ) :
    ∀ (l : List Node) (acc : Option (Node × ℝ)),
      l.foldl (nearest_step lat lon) acc = none ↔ acc = none ∧ l = [] := by
  intro l
  induction l with
  | nil => intro acc; simp
  | cons a t ih =>
    intro acc
    simp only [List.foldl]
    rw [ih]
    constructor
    · rintro ⟨h1, _⟩
      exact absurd h1 (nearest_step_ne_none lat lon acc a)
    · rintro ⟨_, h2⟩
      exact absurd h2 (List.cons_ne_nil a t)

/-- Full characterization of the scan's fold: the result records its own
distance, is a minimum over the traversed list and the incoming accumulator,
and is either the untouched accumulator or the first element of the list that
strictly beats everything before it (ties keep the earlier candidate). -/
lemma nearest_fold_spec (lat lon : ℚ) :
    ∀ (l : List Node) (acc : Option (Node × ℝ)),
      (∀ b : Node × ℝ, acc = some b → b.2 = query_distance lat lon b.1) →
      ∀ (n : Node) (d : ℝ), l.foldl (nearest_step lat lon) acc = some (n, d) →
        d = query_distance lat lon n ∧
        (∀ m ∈ l, d ≤ query_distance lat lon m) ∧
        (∀ b : Node × ℝ, acc = some b → d ≤ b.2) ∧
        (acc = some (n, d) ∨
          ∃ pre post, l = pre ++ n :: post ∧
            (∀ m ∈ pre, d < query_distance lat lon m) ∧
            (∀ b : Node × ℝ, acc = some b → d < b.2)) := by
  intro l
  induction l with
  | nil =>
    intro acc hacc n d h
    simp only [List.foldl] at h
    refine ⟨?_, ?_, ?_, Or.inl h⟩
    · exact hacc (n, d) h
    · intro m hm
      exact absurd hm (List.not_mem_nil m)
    · intro b hb
      rw [h] at hb
      cases hb
      exact le_refl d
  | cons a t ih =>
    intro acc hacc n d h
    simp only [List.foldl] at h
    have hacc' : ∀ b : Node × ℝ, nearest_step lat lon acc a = some b →
        b.2 = query_distance lat lon b.1 := by
      intro b hb
      cases acc with
      | none =>
        rw [nearest_step_none] at hb
        cases hb
        rfl
      | some b0 =>
        by_cases hc : query_distance lat lon a < b0.2
        · rw [nearest_step_new _ _ _ _ hc] at hb
          cases hb
          rfl
        · rw [nearest_step_keep _ _ _ _ hc] at hb
          injection hb with hE
          subst hE
          exact hacc b0 rfl
    have hstep_le_a : ∀ b : Node × ℝ, nearest_step lat lon acc a = some b →
        b.2 ≤ query_distance lat lon a := by
      intro b hb
      cases acc with
      | none =>
        rw [nearest_step_none] at hb
        cases hb
        exact le_refl _
      | some b0 =>
        by_cases hc : query_distance lat lon a < b0.2
        · rw [nearest_step_new _ _ _ _ hc] at hb
          cases hb
          exact le_refl _
        · rw [nearest_step_keep _ _ _ _ hc] at hb
          cases hb
          exact not_lt.mp hc
    have hstep_le_acc : ∀ (b b0 : Node × ℝ), nearest_step lat lon acc a = some b →
        acc = some b0 → b.2 ≤ b0.2 := by
      intro b b0 hb hb0
      subst hb0
      by_cases hc : query_distance lat lon a < b0.2
      · rw [nearest_step_new _ _ _ _ hc] at hb
        cases hb
        exact le_of_lt hc
      · rw [nearest_step_keep _ _ _ _ hc] at hb
        cases hb
        exact le_refl _
    have hstep_some : ∃ b, nearest_step lat lon acc a = some b := by
      cases hs : nearest_step lat lon acc a with
      | none => exact absurd hs (nearest_step_ne_none lat lon acc a)
      | some b => exact ⟨b, rfl⟩
    obtain ⟨sb, hsb⟩ := hstep_some
    obtain ⟨hd, hmin, haccle, hdisj⟩ :=
      ih (nearest_step lat lon acc a) hacc' n d h
    refine ⟨hd, ?_, ?_, ?_⟩
    · intro m hm
      rcases List.mem_cons.mp hm with hma | hmt
      · subst hma
        exact le_trans (haccle sb hsb) (hstep_le_a sb hsb)
      · exact hmin m hmt
    · intro b0 hb0
      exact le_trans (haccle sb hsb) (hstep_le_acc sb b0 hsb hb0)
    · rcases hdisj with heq | ⟨pre, post, hsplit, hpre, haccstrict⟩
      · cases acc with
        | none =>
          rw [nearest_step_none] at heq
          have hna : a = n := congrArg (fun o => (Option.getD o (a, 0)).1) heq
          refine Or.inr ⟨[], t, ?_, ?_, ?_⟩
          · rw [hna]
            rfl
          · intro m hm
            exact absurd hm (List.not_mem_nil m)
          · intro b0 hb0
            cases hb0
        | some b0 =>
          by_cases hc : query_distance lat lon a < b0.2
          · rw [nearest_step_new _ _ _ _ hc] at heq
            have hna : a = n := congrArg (fun o => (Option.getD o (a, 0)).1) heq
            have hda : d = query_distance lat lon a := by
              have := congrArg (fun o => (Option.getD o (a, 0)).2) heq
              exact this.symm
            refine Or.inr ⟨[], t, ?_, ?_, ?_⟩
            · rw [hna]
              rfl
            · intro m hm
              exact absurd hm (List.not_mem_nil m)
            · intro b1 hb1
              injection hb1 with hE
              subst hE
              rw [hda]
              exact hc
          · rw [nearest_step_keep _ _ _ _ hc] at heq
            exact Or.inl heq
      · cases acc with
        | none =>
          have hlt_a : d < query_distance lat lon a :=
            haccstrict (a, query_distance lat lon a) (nearest_step_none lat lon a)
          refine Or.inr ⟨a :: pre, post, ?_, ?_, ?_⟩
          · rw [hsplit]
            rfl
          · intro m hm
            rcases List.mem_cons.mp hm with hma | hmp
            · subst hma
              exact hlt_a
            · exact hpre m hmp
          · intro b0 hb0
            cases hb0
        | some b0 =>
          by_cases hc : query_distance lat lon a < b0.2
          · have hlt_a : d < query_distance lat lon a :=
              haccstrict (a, query_distance lat lon a)
                (nearest_step_new _ _ _ _ hc)
            refine Or.inr ⟨a :: pre, post, ?_, ?_, ?_⟩
            · rw [hsplit]
              rfl
            · intro m hm
              rcases List.mem_cons.mp hm with hma | hmp
              · subst hma
                exact hlt_a
              · exact hpre m hmp
            · intro b1 hb1
              injection hb1 with hE
              subst hE
              exact lt_trans hlt_a hc
          · have hlt_b0 : d < b0.2 :=
              haccstrict b0 (nearest_step_keep _ _ _ _ hc)
            refine Or.inr ⟨a :: pre, post, ?_, ?_, ?_⟩
            · rw [hsplit]
              rfl
            · intro m hm
              rcases List.mem_cons.mp hm with hma | hmp
              · subst hma
                exact lt_of_lt_of_le hlt_b0 (not_lt.mp hc)
              · exact hpre m hmp
            · intro b1 hb1
              injection hb1 with hE
              subst hE
              exact hlt_b0

/-! ## Soundness of the modelled search (claim C4) -/

lemma pair_matches_comm (u v a b : Node) :
    pair_matches u v a b = pair_matches v u a b := by
  unfold pair_matches
  rw [Bool.or_comm]

lemma get_edge_data_symm (g : Graph) (u v : Node) :
    g.get_edge_data u v = g.get_edge_data v u := by
  unfold Graph.get_edge_data
  suffices h : ∀ l : List (Node × Node × EdgeData),
      l.find? (fun t => pair_matches u v t.1 t.2.1) =
        l.find? (fun t => pair_matches v u t.1 t.2.1) by
    rw [h]
  intro l
  induction l with
  | nil => rfl
  | cons x xs ih =>
    simp only [List.find?]
    rw [pair_matches_comm]
    cases pair_matches v u x.1 x.2.1
    · exact ih
    · rfl

lemma find?_isSome_of_mem {α : Type} (p : α → Bool) (l : List α) (x : α)
    (hx : x ∈ l) (hp : p x = true) : (l.find? p).isSome = true := by
  induction l with
  | nil => cases hx
  | cons a tl ih =>
    simp only [List.find?]
    cases hpa : p a
    · rcases List.mem_cons.mp hx with hxa | hxt
      · subst hxa
        rw [hpa] at hp
        cases hp
      · exact ih hxt
    · rfl

/-- Membership in the neighbor list certifies that the edge exists. -/
lemma neighbors_adjacent (g : Graph) (u v : Node) (h : v ∈ g.neighbors u) :
    (g.get_edge_data u v).isSome = true := by
  unfold Graph.neighbors at h
  rw [List.mem_filterMap] at h
  obtain ⟨t, ht, hf⟩ := h
  have hpm : pair_matches u v t.1 t.2.1 = true := by
    by_cases h1 : t.1 = u
    · rw [if_pos h1] at hf
      injection hf with hf
      unfold pair_matches
      simp [h1, hf]
    · rw [if_neg h1] at hf
      by_cases h2 : t.2.1 = u
      · rw [if_pos h2] at hf
        injection hf with hf
        unfold pair_matches
        simp [h2, hf]
      · rw [if_neg h2] at hf
        cases hf
  have hs := find?_isSome_of_mem
    (fun t => pair_matches u v t.1 t.2.1) g.edges t ht hpm
  unfold Graph.get_edge_data
  cases hf2 : g.edges.find? (fun t => pair_matches u v t.1 t.2.1) with
  | none =>
    rw [hf2] at hs
    cases hs
  | some x => rfl

/-- The invariant of a worklist entry: its reversed path starts at its
endpoint, ends at the source, and is joined by graph edges. -/
def queue_entry_inv (g : Graph) (s : Node) (q : Node × List Node) : Prop :=
  q.2.head? = some q.1 ∧ q.2.getLast? = some s ∧
    List.Chain' (fun x y => (g.get_edge_data x y).isSome = true) q.2

/-- Any path returned by the worklist loop starts at the source, ends at the
target, and is joined by graph edges. -/
lemma search_loop_sound (g : Graph) (s t : Node) :
    ∀ (fuel : ℕ) (visited : List Node) (queue : List (Node × List Node)),
      (∀ q ∈ queue, queue_entry_inv g s q) →
      ∀ p, search_loop g t fuel visited queue = some p →
        p.head? = some s ∧ p.getLast? = some t ∧
          List.Chain' (fun x y => (g.get_edge_data x y).isSome = true) p := by
  intro fuel
  induction fuel with
  | zero =>
    intro visited queue hq p hp
    simp [search_loop] at hp
  | succ fuel ih =>
    intro visited queue hq p hp
    cases queue with
    | nil => simp [search_loop] at hp
    | cons e rest =>
      obtain ⟨u, revPath⟩ := e
      simp only [search_loop] at hp
      by_cases hut : u = t
      · rw [if_pos hut] at hp
        injection hp with hp
        subst hp
        obtain ⟨h1, h2, h3⟩ := hq (u, revPath) (List.mem_cons_self _ _)
        refine ⟨?_, ?_, ?_⟩
        · rw [List.head?_reverse]
          exact h2
        · rw [List.getLast?_reverse, h1, hut]
        · rw [List.chain'_reverse]
          refine List.Chain'.imp ?_ h3
          intro x y hxy
          show (g.get_edge_data y x).isSome = true
          rw [get_edge_data_symm]
          exact hxy
      · rw [if_neg hut] at hp
        by_cases huv : u ∈ visited
        · rw [if_pos huv] at hp
          exact ih visited rest
            (fun q hq' => hq q (List.mem_cons_of_mem _ hq')) p hp
        · rw [if_neg huv] at hp
          refine ih _ _ ?_ p hp
          intro q hq'
          rw [List.mem_append] at hq'
          rcases hq' with hq1 | hq2
          · exact hq q (List.mem_cons_of_mem _ hq1)
          · rw [List.mem_map] at hq2
            obtain ⟨v, hv, hvq⟩ := hq2
            subst hvq
            obtain ⟨h1, h2, h3⟩ := hq (u, revPath) (List.mem_cons_self _ _)
            refine ⟨rfl, ?_, ?_⟩
            · cases revPath with
              | nil => cases h1
              | cons x xs =>
                rw [List.getLast?_cons_cons]
                exact h2
            · rw [List.chain'_cons']
              refine ⟨?_, h3⟩
              intro y hy
              rw [h1, Option.mem_some_iff] at hy
              subst hy
              show (g.get_edge_data v u).isSome = true
              rw [get_edge_data_symm]
              exact neighbors_adjacent g u v hv

/-- A nonempty edge-joined vertex chain witnesses reachability between its
endpoints. -/
lemma chain'_reachable (g : Graph) :
    ∀ (p : List Node) (s t : Node), p.head? = some s → p.getLast? = some t →
      List.Chain' (fun x y => (g.get_edge_data x y).isSome = true) p →
      Reachable g s t := by
  intro p
  induction p with
  | nil =>
    intro s t h1 _ _
    cases h1
  | cons a l ih =>
    intro s t h1 h2 h3
    injection h1 with h1
    subst h1
    cases l with
    | nil =>
      have hat : a = t := by simpa using h2
      subst hat
      exact Relation.ReflTransGen.refl
    | cons b l2 =>
      rw [List.chain'_cons] at h3
      rw [List.getLast?_cons_cons] at h2
      exact Relation.ReflTransGen.head h3.1 (ih b t rfl h2 h3.2)

/-- When the target is unreachable the modelled search reports no path. -/
lemma astar_path_none_of_not_reachable (g : Graph) (s t : Node)
    (h : ¬ Reachable g s t) : astar_path g s t = none := by
  cases hp : astar_path g s t with
  | none => rfl
  | some p =>
    exfalso
    unfold astar_path at hp
    have hsound := search_loop_sound g s t _ [] [(s, [s])] ?_ p hp
    · exact h (chain'_reachable g p s t hsound.1 hsound.2.1 hsound.2.2)
    · intro q hq
      rw [List.mem_singleton] at hq
      subst hq
      exact ⟨rfl, rfl, List.chain'_singleton s⟩

/-! ## The reported metrics versus the spec metrics (claim C2) -/

lemma get_edge_data_mem (g : Graph) (u v : Node) (e : EdgeData)
    (h : g.get_edge_data u v = some e) : ∃ t ∈ g.edges, t.2.2 = e := by
  unfold Graph.get_edge_data at h
  rw [Option.map_eq_some'] at h
  obtain ⟨t, ht, hte⟩ := h
  exact ⟨t, List.mem_of_find?_eq_some ht, hte⟩

/-- Under the §3 weighting invariant, the length computed by dividing the
penalty back out coincides with the spec's direct sum of base distances. -/
lemma calculate_eq_spec_of_invariant (g : Graph)
    (hinv : graph_weight_invariant g) (path : List Node) :
    calculate_path_length g path = spec_true_distance g path := by
  unfold calculate_path_length spec_true_distance
  apply List.foldl_ext
  intro acc uv _
  cases hge : g.get_edge_data uv.1 uv.2 with
  | none => rfl
  | some e =>
    obtain ⟨te, hte, hteq⟩ := get_edge_data_mem g uv.1 uv.2 e hge
    have hw := hinv te hte
    rw [hteq] at hw
    unfold weight_invariant at hw
    show acc + (if e.is_flooded then e.weight / 100 else e.weight) =
      acc + base_distance e
    cases hfl : e.is_flooded
    · rw [hfl] at hw
      simp only [Bool.false_eq_true, if_false] at hw ⊢
      rw [hw]
    · rw [hfl] at hw
      simp only [if_true] at hw ⊢
      rw [hw]
      ring

/-- The Boolean "this traversed pair is a flooded edge" predicate. -/
def flooded_pair (g : Graph) (uv : Node × Node) : Bool :=
  match g.get_edge_data uv.1 uv.2 with
  | some e => e.is_flooded
  | none => false

lemma count_foldl_eq (g : Graph) :
    ∀ (l : List (Node × Node)) (n : ℕ),
      l.foldl (fun count uv =>
        match g.get_edge_data uv.1 uv.2 with
        | some e => if e.is_flooded then count + 1 else count
        | none => count) n = n + (l.filter (flooded_pair g)).length := by
  have hstep : ∀ (n : ℕ) (uv : Node × Node),
      (match g.get_edge_data uv.1 uv.2 with
        | some e => if e.is_flooded then n + 1 else n
        | none => n) = if flooded_pair g uv then n + 1 else n := by
    intro n uv
    unfold flooded_pair
    cases g.get_edge_data uv.1 uv.2 with
    | none => simp
    | some e => cases hfl : e.is_flooded <;> simp [hfl]
  intro l
  induction l with
  | nil => intro n; simp
  | cons uv l ih =>
    intro n
    simp only [List.foldl]
    rw [hstep n uv, ih]
    cases hp : flooded_pair g uv
    · simp [List.filter_cons, hp]
    · simp [List.filter_cons, hp]
      omega

/-- The count computed by `_count_flooded_segments` coincides with the spec's
hazardous-segment count, unconditionally. -/
lemma count_eq_spec (g : Graph) (path : List Node) :
    count_flooded_segments g path = spec_hazard_count g path := by
  show count_flooded_segments g path =
    ((path_pairs path).filter (flooded_pair g)).length
  unfold count_flooded_segments
  rw [count_foldl_eq g (path_pairs path) 0]
  exact Nat.zero_add _

/-! ## Evaluation and inversion of `find_route` -/

lemma find_route_no_path (p : RoutePlanner) (g : Graph)
    (lat1 lon1 lat2 lon2 : ℚ) (s t : Node)
    (hg : p.graph = some g)
    (hs : find_nearest_node g lat1 lon1 = some s)
    (ht : find_nearest_node g lat2 lon2 = some t)
    (ha : astar_path g s t = none) :
    p.find_route lat1 lon1 lat2 lon2 =
      some (RouteOutput.errorNoPath "Nie znaleziono trasy między punktami") := by
  unfold RoutePlanner.find_route
  simp only [hg, hs, ht, ha]

lemma find_route_success (p : RoutePlanner) (g : Graph)
    (lat1 lon1 lat2 lon2 : ℚ) (s t : Node) (path : List Node)
    (hg : p.graph = some g)
    (hs : find_nearest_node g lat1 lon1 = some s)
    (ht : find_nearest_node g lat2 lon2 = some t)
    (ha : astar_path g s t = some path) :
    p.find_route lat1 lon1 lat2 lon2 =
      some (RouteOutput.success
        { coordinates := path
          distance_meters := calculate_path_length g path
          nodes_count := path.length
          flooded_segments := count_flooded_segments g path }) := by
  unfold RoutePlanner.find_route
  simp only [hg, hs, ht, ha]

lemma find_route_success_inv (p : RoutePlanner) (g : Graph)
    (lat1 lon1 lat2 lon2 : ℚ) (d : RouteSuccess)
    (hg : p.graph = some g)
    (hr : p.find_route lat1 lon1 lat2 lon2 = some (RouteOutput.success d)) :
    d.distance_meters = calculate_path_length g d.coordinates ∧
    d.flooded_segments = count_flooded_segments g d.coordinates := by
  unfold RoutePlanner.find_route at hr
  split at hr
  · cases hr
  · rename_i g1 heq
    have hgg : g1 = g := by
      rw [hg] at heq
      exact (Option.some.inj heq).symm
    subst hgg
    split at hr
    · split at hr
      · rename_i path ha
        have h1 := Option.some.inj hr
        have h2 := RouteOutput.success.inj h1
        subst h2
        exact ⟨rfl, rfl⟩
      · cases Option.some.inj hr
    · cases hr

/-! ## Claims -/

/-- C7: for every query coordinate, `_find_nearest_node` returns "not found"
(`none`) iff the graph has zero vertices; a returned vertex attains the
minimal geodesic distance to the query over all vertices; and it is the first
vertex in enumeration order attaining that minimum (every vertex enumerated
before it is strictly farther). -/
theorem c7_nearest_node_correct (g : Graph) (lat lon : ℚ) :
    (find_nearest_node g lat lon = none ↔ g.nodes = []) ∧
    (∀ n : Node, find_nearest_node g lat lon = some n →
      (∀ m ∈ g.nodes, query_distance lat lon n ≤ query_distance lat lon m) ∧
      ∃ pre post, g.nodes = pre ++ n :: post ∧
        ∀ m ∈ pre, query_distance lat lon n < query_distance lat lon m) := by
  constructor
  · unfold find_nearest_node
    rw [Option.map_eq_none', nearest_fold_none]
    simp
  · intro n hn
    unfold find_nearest_node at hn
    rw [Option.map_eq_some'] at hn
    obtain ⟨b, hb, hb1⟩ := hn
    obtain ⟨n1, d⟩ := b
    cases hb1
    obtain ⟨hd, hmin, _, hdisj⟩ :=
      nearest_fold_spec lat lon g.nodes none (by intro b hb0; cases hb0) n1 d hb
    rcases hdisj with h1 | ⟨pre, post, hsplit, hpre, _⟩
    · cases h1
    · subst hd
      exact ⟨hmin, pre, post, hsplit, hpre⟩

/-- Witness for C7 at the concrete two-vertex network: the query at `nA`'s
own coordinates resolves to `nA`, which minimizes the distance and is first
in enumeration order. -/
theorem c7_nearest_node_witness :
    find_nearest_node g_single 0 0 = some nA ∧
    ((∀ m ∈ g_single.nodes, query_distance 0 0 nA ≤ query_distance 0 0 m) ∧
      ∃ pre post, g_single.nodes = pre ++ nA :: post ∧
        ∀ m ∈ pre, query_distance 0 0 nA < query_distance 0 0 m) :=
  ⟨(find_nearest_pair g_single g_single_nodes).1,
    (c7_nearest_node_correct g_single 0 0).2 nA
      ((find_nearest_pair g_single g_single_nodes).1)⟩

/-- C8: the geodesic distance utility returns 0 on identical points, is
symmetric, and maps two points exactly 1° of latitude apart on the same
meridian to a value within 2 000 m of 111 000 m. -/
theorem c8_haversine_properties :
    (∀ lat lon : ℝ, haversine_distance lat lon lat lon = 0) ∧
    (∀ lat1 lon1 lat2 lon2 : ℝ, haversine_distance lat1 lon1 lat2 lon2 =
      haversine_distance lat2 lon2 lat1 lon1) ∧
    (∀ lat lon : ℝ,
      |haversine_distance lat lon (lat + 1) lon - 111000| ≤ 2000) := by
  refine ⟨haversine_self, haversine_symm, ?_⟩
  intro lat lon
  have hdiff : lat + 1 - lat = (1 : ℝ) := by ring
  rw [haversine_meridian lat (lat + 1) lon (by rw [hdiff]; norm_num)]
  rw [hdiff, abs_one, abs_le]
  constructor
  · linarith [Real.pi_gt_d6]
  · linarith [Real.pi_lt_d6]

/-- C9: `find_route` mutates nothing and is deterministic, so a second call
with the same coordinates against the unchanged state returns an identical
result (same status, path, distance and hazard metrics). -/
theorem c9_find_route_idempotent (p : RoutePlanner) (lat1 lon1 lat2 lon2 : ℚ) :
    (p.find_route_st lat1 lon1 lat2 lon2).2 = p ∧
    ((p.find_route_st lat1 lon1 lat2 lon2).2.find_route_st
        lat1 lon1 lat2 lon2).1 =
      (p.find_route_st lat1 lon1 lat2 lon2).1 :=
  ⟨rfl, rfl⟩

/-! ## Concrete edge records of the fixture states -/

/-- The base geodesic distance of the fixture segment `nA — nB` (1° of
latitude along the meridian 0). -/
noncomputable def base_AB : ℝ :=
  haversine_distance ((0 : ℚ) : ℝ) ((0 : ℚ) : ℝ) ((1 : ℚ) : ℝ) ((0 : ℚ) : ℝ)

lemma base_AB_pos : 0 < base_AB := by
  unfold base_AB
  have hb : |((1 : ℚ) : ℝ) - ((0 : ℚ) : ℝ)| ≤ 180 := by
    push_cast
    norm_num
  rw [haversine_meridian ((0 : ℚ) : ℝ) ((1 : ℚ) : ℝ) ((0 : ℚ) : ℝ) hb]
  have h1 : |((1 : ℚ) : ℝ) - ((0 : ℚ) : ℝ)| = 1 := by
    push_cast
    norm_num
  rw [h1]
  nlinarith [Real.pi_pos]

noncomputable def e_single : EdgeData :=
  { weight := base_AB, geometry := (nA, nB), segment_id := "0_0",
    is_flooded := false }

noncomputable def e_flood2 : EdgeData :=
  { weight := base_AB * 100 * 100, geometry := (nA, nB), segment_id := "0_0",
    is_flooded := true }

noncomputable def e_switch : EdgeData :=
  { weight := base_AB * 100, geometry := (nA, nB), segment_id := "0_0",
    is_flooded := true }

lemma g_single_edges : g_single.edges = [(nA, nB, e_single)] := rfl

lemma g_flood2_lookup : g_flood2.get_edge_data nA nB = some e_flood2 := rfl

lemma g_switch_lookup : g_switch.get_edge_data nA nB = some e_switch := rfl

lemma g_single_invariant : graph_weight_invariant g_single := by
  intro t ht
  rw [g_single_edges, List.mem_singleton] at ht
  subst ht
  rfl

/-! ## C1 and C3: the overlay re-weighting defect -/

/-- C1 (code bug, evaluated at the failing input): the spec's §3 invariant
demands that an edge hazardous across repeated overlay passes keep
`search_weight = base_distance × 100`, but after `set_flood_zones` is invoked
twice with a zone still covering the single fixture edge, the code has
multiplied the current weight by 100 twice: the edge is flagged flooded with
`weight = base_distance × 10000`, strictly above `base_distance × 100`. -/
theorem c1_weight_invariant_code_bug :
    ∃ e : EdgeData,
      (p_flood2.graph.bind fun g => g.get_edge_data nA nB) = some e ∧
      e.is_flooded = true ∧
      e.weight = base_distance e * 10000 ∧
      base_distance e * 100 < e.weight := by
  refine ⟨e_flood2, ?_, rfl, ?_, ?_⟩
  · rw [p_flood2_graph]
    show g_flood2.get_edge_data nA nB = some e_flood2
    exact g_flood2_lookup
  · show base_AB * 100 * 100 = base_distance e_flood2 * 10000
    rw [show base_distance e_flood2 = base_AB from rfl]
    ring
  · show base_distance e_flood2 * 100 < base_AB * 100 * 100
    rw [show base_distance e_flood2 = base_AB from rfl]
    nlinarith [base_AB_pos]

/-- C3 (code bug, evaluated at the failing input): after the overlay runs
with zone set `[zone_cover]` (flooding the fixture edge) and is then invoked
again with the disjoint zone set `[zone_far]`, the claim requires the state
determined by the new zone set alone — the edge unflagged with
`weight = base_distance`.  The code instead leaves the stale flag and penalty:
no current zone intersects the edge, yet `is_flooded` is still `true` and the
weight strictly exceeds the base distance. -/
theorem c3_overlay_reset_code_bug :
    ∃ e : EdgeData,
      (p_switch.graph.bind fun g => g.get_edge_data nA nB) = some e ∧
      (p_switch.flood_zones.all fun z => !(bbox_intersects e.geometry z)) = true ∧
      e.is_flooded = true ∧
      base_distance e < e.weight := by
  refine ⟨e_switch, ?_, ?_, rfl, ?_⟩
  · rw [p_switch_graph]
    show g_switch.get_edge_data nA nB = some e_switch
    exact g_switch_lookup
  · decide
  · show base_distance e_switch < base_AB * 100
    rw [show base_distance e_switch = base_AB from rfl]
    nlinarith [base_AB_pos]

/-! ## C2: reported metrics -/

/-- C2 (counterexample): in the reachable state `p_flood2` (overlay applied
twice with the same covering zone), the successful route over the single
edge reports a distance strictly greater than the spec's direct sum of base
distances — the code divides the penalty factor back out of the compounded
search weight and obtains `base_distance × 100`. -/
theorem c2_reported_distance_counterexample :
    ∃ d : RouteSuccess,
      p_flood2.find_route 0 0 1 0 = some (RouteOutput.success d) ∧
      spec_true_distance g_flood2 d.coordinates < d.distance_meters := by
  refine ⟨_, find_route_success p_flood2 g_flood2 0 0 1 0 nA nB [nA, nB]
    p_flood2_graph (find_nearest_pair g_flood2 g_flood2_nodes).1
    (find_nearest_pair g_flood2 g_flood2_nodes).2 astar_flood2_route, ?_⟩
  show spec_true_distance g_flood2 [nA, nB] <
    calculate_path_length g_flood2 [nA, nB]
  have hspec : spec_true_distance g_flood2 [nA, nB] = 0 + base_distance e_flood2 := by
    unfold spec_true_distance
    rw [show path_pairs [nA, nB] = [(nA, nB)] from rfl]
    simp only [List.foldl]
    rw [g_flood2_lookup]
  have hcalc : calculate_path_length g_flood2 [nA, nB] =
      0 + (base_AB * 100 * 100) / 100 := by
    unfold calculate_path_length
    rw [show path_pairs [nA, nB] = [(nA, nB)] from rfl]
    simp only [List.foldl]
    rw [g_flood2_lookup]
    rfl
  rw [hspec, hcalc, show base_distance e_flood2 = base_AB from rfl]
  have h100 : base_AB * 100 * 100 / 100 = base_AB * 100 := by ring
  rw [h100]
  nlinarith [base_AB_pos]

/-- C2 (amended): the code computes the reported distance by summing, for
each traversed edge, `search_weight / 100` when the edge is flagged flooded
and `search_weight` otherwise — reconstructing the base distance by dividing
the penalty back out rather than taking it directly.  Whenever every edge of
the graph satisfies the §3 weighting invariant (as after build and at most
one overlay pass), this reconstruction coincides with the spec's direct sum
of base distances; the hazardous-segment count is, as claimed, the number of
traversed edges with `is_flooded == true`. -/
theorem c2_reported_metrics_amended (p : RoutePlanner) (g : Graph)
    (lat1 lon1 lat2 lon2 : ℚ) (d : RouteSuccess)
    (hg : p.graph = some g) (hinv : graph_weight_invariant g)
    (hr : p.find_route lat1 lon1 lat2 lon2 = some (RouteOutput.success d)) :
    d.distance_meters = spec_true_distance g d.coordinates ∧
    d.flooded_segments = spec_hazard_count g d.coordinates := by
  obtain ⟨h1, h2⟩ := find_route_success_inv p g lat1 lon1 lat2 lon2 d hg hr
  exact ⟨h1.trans (calculate_eq_spec_of_invariant g hinv d.coordinates),
    h2.trans (count_eq_spec g d.coordinates)⟩

/-- The success payload of the witness route of C2: both queries resolve to
`nA`, so the path is the single vertex `nA` with no traversed edge. -/
noncomputable def w_data : RouteSuccess :=
  { coordinates := [nA], distance_meters := 0, nodes_count := 1,
    flooded_segments := 0 }

/-- Witness for C2 (amended) on the freshly built single-edge network. -/
theorem c2_reported_metrics_amended_witness :
    (p_built.graph = some g_single ∧ graph_weight_invariant g_single ∧
      p_built.find_route 0 0 0 0 = some (RouteOutput.success w_data)) ∧
    (w_data.distance_meters = spec_true_distance g_single w_data.coordinates ∧
      w_data.flooded_segments = spec_hazard_count g_single w_data.coordinates) :=
  have h3 : p_built.find_route 0 0 0 0 = some (RouteOutput.success w_data) :=
    find_route_success p_built g_single 0 0 0 0 nA nA [nA] p_built_graph
      (find_nearest_pair g_single g_single_nodes).1
      (find_nearest_pair g_single g_single_nodes).1 astar_single_self
  ⟨⟨p_built_graph, g_single_invariant, h3⟩,
    c2_reported_metrics_amended p_built g_single 0 0 0 0 w_data
      p_built_graph g_single_invariant h3⟩

/-! ## C4: the no-path outcome -/

/-- C4 (counterexample): on the disconnected fixture, resolving the two
queries to the two components, `find_route` does return a result with no
path data, but its `metadata.status` is the string `"error"`, not the
claimed `"no_path"`. -/
theorem c4_no_path_counterexample :
    p_disc.find_route 0 0 10 0 =
      some (RouteOutput.errorNoPath "Nie znaleziono trasy między punktami") ∧
    (RouteOutput.errorNoPath "Nie znaleziono trasy między punktami").status
      = "error" ∧
    ((RouteOutput.errorNoPath "Nie znaleziono trasy między punktami").status
      == "no_path") = false := by
  refine ⟨?_, rfl, by decide⟩
  exact find_route_no_path p_disc g_disc 0 0 10 0 nA nC p_disc_graph
    (find_nearest_quad g_disc g_disc_nodes).1
    (find_nearest_quad g_disc g_disc_nodes).2 astar_disc_none

/-- C4 (amended): when both coordinates resolve to vertices with no
connecting path in the graph, `find_route` returns the metadata-only result
whose status string is `"error"` with the fixed no-route message; the
`errorNoPath` outcome carries no coordinate sequence and no distance
metrics. -/
theorem c4_no_path_amended (p : RoutePlanner) (g : Graph)
    (lat1 lon1 lat2 lon2 : ℚ) (s t : Node)
    (hg : p.graph = some g)
    (hs : find_nearest_node g lat1 lon1 = some s)
    (ht : find_nearest_node g lat2 lon2 = some t)
    (hnp : ¬ Reachable g s t) :
    p.find_route lat1 lon1 lat2 lon2 =
      some (RouteOutput.errorNoPath "Nie znaleziono trasy między punktami") :=
  find_route_no_path p g lat1 lon1 lat2 lon2 s t hg hs ht
    (astar_path_none_of_not_reachable g s t hnp)

lemma exists_of_find?_isSome {α : Type} (p : α → Bool) (l : List α)
    (h : (l.find? p).isSome = true) : ∃ x ∈ l, p x = true := by
  induction l with
  | nil => simp [List.find?] at h
  | cons a tl ih =>
    simp only [List.find?] at h
    cases hpa : p a
    · rw [hpa] at h
      obtain ⟨x, hx, hpx⟩ := ih h
      exact ⟨x, List.mem_cons_of_mem a hx, hpx⟩
    · exact ⟨a, List.mem_cons_self a tl, hpa⟩

/-- The base geodesic distance of the fixture segment `nC — nD`. -/
noncomputable def base_CD : ℝ :=
  haversine_distance ((10 : ℚ) : ℝ) ((0 : ℚ) : ℝ) ((11 : ℚ) : ℝ) ((0 : ℚ) : ℝ)

noncomputable def e_CD : EdgeData :=
  { weight := base_CD, geometry := (nC, nD), segment_id := "1_0",
    is_flooded := false }

lemma g_disc_edges : g_disc.edges = [(nA, nB, e_single), (nC, nD, e_CD)] := rfl

/-- The only edges of the disconnected fixture join `nA` with `nB` and `nC`
with `nD`. -/
lemma disc_adj (x y : Node) (h : (g_disc.get_edge_data x y).isSome = true) :
    (x = nA ∧ y = nB) ∨ (x = nB ∧ y = nA) ∨
      (x = nC ∧ y = nD) ∨ (x = nD ∧ y = nC) := by
  unfold Graph.get_edge_data at h
  have h2 : (g_disc.edges.find?
      (fun t => pair_matches x y t.1 t.2.1)).isSome = true := by
    cases hf : g_disc.edges.find? (fun t => pair_matches x y t.1 t.2.1) with
    | none =>
      rw [hf] at h
      simp at h
    | some v => rfl
  rw [g_disc_edges] at h2
  obtain ⟨t, ht, hpm⟩ := exists_of_find?_isSome _ _ h2
  have hcases : t = (nA, nB, e_single) ∨ t = (nC, nD, e_CD) := by
    simpa using ht
  rcases hcases with rfl | rfl
  · unfold pair_matches at hpm
    simp only [Bool.or_eq_true, Bool.and_eq_true, decide_eq_true_eq] at hpm
    rcases hpm with ⟨ha, hb⟩ | ⟨ha, hb⟩
    · exact Or.inl ⟨ha.symm, hb.symm⟩
    · exact Or.inr (Or.inl ⟨hb.symm, ha.symm⟩)
  · unfold pair_matches at hpm
    simp only [Bool.or_eq_true, Bool.and_eq_true, decide_eq_true_eq] at hpm
    rcases hpm with ⟨ha, hb⟩ | ⟨ha, hb⟩
    · exact Or.inr (Or.inr (Or.inl ⟨ha.symm, hb.symm⟩))
    · exact Or.inr (Or.inr (Or.inr ⟨hb.symm, ha.symm⟩))

/-- `nC` is not reachable from `nA` in the disconnected fixture. -/
lemma not_reachable_disc : ¬ Reachable g_disc nA nC := by
  have hclosed : ∀ x : Node, Reachable g_disc nA x → x = nA ∨ x = nB := by
    intro x hx
    induction hx with
    | refl => exact Or.inl rfl
    | tail _ hbc ih =>
      rcases disc_adj _ _ hbc with ⟨hb, hc⟩ | ⟨hb, hc⟩ | ⟨hb, hc⟩ | ⟨hb, hc⟩
      · exact Or.inr hc
      · exact Or.inl hc
      · subst hb
        rcases ih with h | h <;> exact absurd h (by decide)
      · subst hb
        rcases ih with h | h <;> exact absurd h (by decide)
  intro h
  rcases hclosed nC h with h1 | h1 <;> exact absurd h1 (by decide)

/-- Witness for C4 (amended) on the disconnected fixture. -/
theorem c4_no_path_amended_witness :
    (p_disc.graph = some g_disc ∧
      find_nearest_node g_disc 0 0 = some nA ∧
      find_nearest_node g_disc 10 0 = some nC ∧
      ¬ Reachable g_disc nA nC) ∧
    p_disc.find_route 0 0 10 0 =
      some (RouteOutput.errorNoPath "Nie znaleziono trasy między punktami") :=
  ⟨⟨p_disc_graph, (find_nearest_quad g_disc g_disc_nodes).1,
      (find_nearest_quad g_disc g_disc_nodes).2, not_reachable_disc⟩,
    c4_no_path_amended p_disc g_disc 0 0 10 0 nA nC p_disc_graph
      (find_nearest_quad g_disc g_disc_nodes).1
      (find_nearest_quad g_disc g_disc_nodes).2 not_reachable_disc⟩

/-! ## C5: the not-ready outcome -/

/-- A freshly constructed planner on which `find_route` is called before
`load_road_network`/`build_graph`. -/
def p_fresh : RoutePlanner := RoutePlanner.init "data/map_data.geojson"

/-- C5 (counterexample): before the graph is built, `find_route` returns the
Python `None` — no result object at all, hence no result carrying a
`not_ready` status; indeed no `find_route` result ever carries the status
string `"not_ready"` (the only statuses are `"success"` and `"error"`). -/
theorem c5_not_ready_counterexample :
    p_fresh.find_route 0 0 1 0 = none ∧
    ∀ r : RouteOutput, (r.status == "not_ready") = false := by
  constructor
  · rfl
  · intro r
    cases r <;> rfl

/-- C5 (amended): a route request made before `build_graph`, or against a
built graph with zero vertices (so that nearest-vertex resolution fails),
returns `None`: no crash is raised and no search is attempted, but no
`not_ready`-status result object is produced either — the HTTP layer is what
reports not-ready. -/
theorem c5_not_ready_amended :
    (∀ (path : String) (gdf : Option (List Geometry)) (zones : List Polygon)
        (lat1 lon1 lat2 lon2 : ℚ),
      RoutePlanner.find_route ⟨path, gdf, none, zones⟩ lat1 lon1 lat2 lon2
        = none) ∧
    (∀ (p : RoutePlanner) (g : Graph) (lat1 lon1 lat2 lon2 : ℚ),
      p.graph = some g → g.nodes = [] →
      p.find_route lat1 lon1 lat2 lon2 = none) := by
  constructor
  · intro path gdf zones lat1 lon1 lat2 lon2
    rfl
  · intro p g lat1 lon1 lat2 lon2 hg hn
    have hnone1 : find_nearest_node g lat1 lon1 = none := by
      unfold find_nearest_node
      rw [hn]
      rfl
    have hnone2 : find_nearest_node g lat2 lon2 = none := by
      unfold find_nearest_node
      rw [hn]
      rfl
    unfold RoutePlanner.find_route
    simp only [hg, hnone1, hnone2]

/-- Witness for C5 (amended) at a built-but-empty graph. -/
theorem c5_not_ready_amended_witness :
    ((⟨"m", none, some ⟨[], []⟩, []⟩ : RoutePlanner).graph
        = some (⟨[], []⟩ : Graph) ∧
      (⟨[], []⟩ : Graph).nodes = []) ∧
    RoutePlanner.find_route ⟨"m", none, some ⟨[], []⟩, []⟩ 0 0 1 0 = none :=
  ⟨⟨rfl, rfl⟩, c5_not_ready_amended.2 ⟨"m", none, some ⟨[], []⟩, []⟩
    ⟨[], []⟩ 0 0 1 0 rfl rfl⟩

/-! ## C6: building from empty road data -/

/-- The empty graph. -/
def g_empty : Graph := ⟨[], []⟩

/-- C6 (counterexample): with road data loaded but empty, `build_graph`
returns `True` and installs an empty graph — it does not report failure as
the claim requires. -/
theorem c6_empty_build_counterexample :
    ((⟨"data", some [], none, []⟩ : RoutePlanner).build_graph).2 = true ∧
    ((⟨"data", some [], none, []⟩ : RoutePlanner).build_graph).1.graph
      = some g_empty :=
  ⟨rfl, rfl⟩

/-- C6 (amended): `build_graph` reports failure iff the road data was never
loaded (`self.gdf` is `None`); whenever data is present it reports success —
in particular, for a loaded-but-empty feature list it succeeds and silently
produces the empty graph. -/
theorem c6_empty_build_amended :
    (∀ (path : String) (g0 : Option Graph) (zones : List Polygon),
      RoutePlanner.build_graph ⟨path, none, g0, zones⟩ =
        (⟨path, none, g0, zones⟩, false)) ∧
    (∀ (path : String) (g0 : Option Graph) (zones : List Polygon)
        (feats : List Geometry),
      RoutePlanner.build_graph ⟨path, some feats, g0, zones⟩ =
        (⟨path, some feats, some (build_graph_features feats 0 g_empty),
          zones⟩, true)) ∧
    (∀ (path : String) (g0 : Option Graph) (zones : List Polygon),
      RoutePlanner.build_graph ⟨path, some [], g0, zones⟩ =
        (⟨path, some [], some g_empty, zones⟩, true)) :=
  ⟨fun _ _ _ => rfl, fun _ _ _ _ => rfl, fun _ _ _ => rfl⟩

/-! ## C10: segment identifiers of multi-part features -/

lemma pair_matches_self (u v : Node) : pair_matches u v u v = true := by
  simp [pair_matches]

lemma add_node_edges (g : Graph) (n : Node) : (g.add_node n).edges = g.edges := by
  unfold Graph.add_node
  split <;> rfl

lemma add_edge_edges_new (g : Graph) (u v : Node) (e : EdgeData)
    (h : g.edges.any (fun t => pair_matches u v t.1 t.2.1) = false) :
    (g.add_edge u v e).edges = g.edges ++ [(u, v, e)] := by
  simp only [Graph.add_edge, add_node_edges, h, Bool.false_eq_true, if_false]

/-- The edge-attribute record inserted by `_add_linestring_to_graph` for the
`i`-th consecutive pair of a part (a proof-side name for the record built
inline by `add_segments`). -/
noncomputable def seg_edge (fid : String) (i : ℕ) (x y : Node) : EdgeData :=
  { weight := haversine_distance (x.2 : ℝ) (x.1 : ℝ) (y.2 : ℝ) (y.1 : ℝ)
    geometry := (x, y)
    segment_id := fid ++ "_" ++ toString i
    is_flooded := false }

lemma add_segments_graph_cons (fid : String) (g : Graph) (x y : Node)
    (rest : List Node) (i : ℕ) :
    (add_segments fid g (x :: y :: rest) i).1 =
      (add_segments fid (g.add_edge x y (seg_edge fid i x y))
        (y :: rest) (i + 1)).1 := rfl

lemma add_segments_graph_single (fid : String) (g : Graph) (x : Node) (i : ℕ) :
    (add_segments fid g [x] i).1 = g := rfl

/-- C10: expanding a `MultiLineString` feature processes every part with the
same feature identifier and restarts the edge index at 0 for each part, so
the `j`-th edge of each part gets `segment_id = "{feature_id}_{j}"`.  For a
feature (at dataframe index 0) with parts `[a, b, c]` and `[d, e]` whose
consecutive vertex pairs are pairwise distinct, the built graph holds edges
`a—b` with id `"0_0"`, `b—c` with id `"0_1"`, and `d—e` again with id
`"0_0"`: two distinct edges of the graph carry the identical identifier, so
`segment_id` is not unique across the graph. -/
theorem c10_segment_id_restart (a b c d e : Node)
    (h1 : pair_matches b c a b = false)
    (h2 : pair_matches d e a b = false)
    (h3 : pair_matches d e b c = false)
    (path : String) (g0 : Option Graph) (zones : List Polygon) :
    ∃ g : Graph,
      ((RoutePlanner.build_graph
        ⟨path, some [Geometry.multiLineString [[a, b, c], [d, e]]], g0,
          zones⟩).1.graph) = some g ∧
      (g.get_edge_data a b).map EdgeData.segment_id = some "0_0" ∧
      (g.get_edge_data b c).map EdgeData.segment_id = some "0_1" ∧
      (g.get_edge_data d e).map EdgeData.segment_id = some "0_0" := by
  have hbuild :
      build_graph_features [Geometry.multiLineString [[a, b, c], [d, e]]] 0
        (⟨[], []⟩ : Graph) =
      (((⟨[], []⟩ : Graph).add_edge a b (seg_edge "0" 0 a b)).add_edge b c
        (seg_edge "0" 1 b c)).add_edge d e (seg_edge "0" 0 d e) := by
    show (add_linestring_to_graph
        ((add_linestring_to_graph (⟨[], []⟩ : Graph) [a, b, c]
          (toString 0)).1) [d, e] (toString 0)).1 = _
    unfold add_linestring_to_graph
    rw [add_segments_graph_cons, add_segments_graph_cons,
      add_segments_graph_cons, add_segments_graph_single,
      add_segments_graph_single]
    rw [show toString (0 : ℕ) = "0" from rfl, show (0 : ℕ) + 1 = 1 from rfl]
  have s1 : ((⟨[], []⟩ : Graph).add_edge a b (seg_edge "0" 0 a b)).edges
      = [(a, b, seg_edge "0" 0 a b)] := by
    rw [add_edge_edges_new (⟨[], []⟩ : Graph) a b (seg_edge "0" 0 a b) rfl]
    rfl
  have hc2 : (((⟨[], []⟩ : Graph).add_edge a b (seg_edge "0" 0 a b)).edges.any
      (fun t => pair_matches b c t.1 t.2.1)) = false := by
    rw [s1]
    simp [h1]
  have s2 : (((⟨[], []⟩ : Graph).add_edge a b (seg_edge "0" 0 a b)).add_edge
      b c (seg_edge "0" 1 b c)).edges
      = [(a, b, seg_edge "0" 0 a b), (b, c, seg_edge "0" 1 b c)] := by
    rw [add_edge_edges_new ((⟨[], []⟩ : Graph).add_edge a b
      (seg_edge "0" 0 a b)) b c (seg_edge "0" 1 b c) hc2, s1]
    rfl
  have hc3 : ((((⟨[], []⟩ : Graph).add_edge a b (seg_edge "0" 0 a b)).add_edge
      b c (seg_edge "0" 1 b c)).edges.any
      (fun t => pair_matches d e t.1 t.2.1)) = false := by
    rw [s2]
    simp [h2, h3]
  have hedges : (build_graph_features
      [Geometry.multiLineString [[a, b, c], [d, e]]] 0 (⟨[], []⟩ : Graph)).edges
      = [(a, b, seg_edge "0" 0 a b), (b, c, seg_edge "0" 1 b c),
          (d, e, seg_edge "0" 0 d e)] := by
    rw [hbuild,
      add_edge_edges_new (((⟨[], []⟩ : Graph).add_edge a b
        (seg_edge "0" 0 a b)).add_edge b c (seg_edge "0" 1 b c)) d e
        (seg_edge "0" 0 d e) hc3, s2]
    rfl
  refine ⟨_, rfl, ?_, ?_, ?_⟩
  · unfold Graph.get_edge_data
    rw [hedges]
    simp only [List.find?, pair_matches_self, h1, h2, h3]
    rfl
  · unfold Graph.get_edge_data
    rw [hedges]
    simp only [List.find?, pair_matches_self, h1, h2, h3]
    rfl
  · unfold Graph.get_edge_data
    rw [hedges]
    simp only [List.find?, pair_matches_self, h1, h2, h3]
    rfl

/-- Witness for C10 at concrete coordinates on the meridian. -/
theorem c10_segment_id_witness :
    (pair_matches (1, 0) (2, 0) (0, 0) (1, 0) = false ∧
      pair_matches (10, 0) (11, 0) (0, 0) (1, 0) = false ∧
      pair_matches (10, 0) (11, 0) (1, 0) (2, 0) = false) ∧
    ∃ g : Graph,
      ((RoutePlanner.build_graph
        ⟨"m", some [Geometry.multiLineString
          [[(0, 0), (1, 0), (2, 0)], [(10, 0), (11, 0)]]], none,
          []⟩).1.graph) = some g ∧
      (g.get_edge_data (0, 0) (1, 0)).map EdgeData.segment_id = some "0_0" ∧
      (g.get_edge_data (1, 0) (2, 0)).map EdgeData.segment_id = some "0_1" ∧
      (g.get_edge_data (10, 0) (11, 0)).map EdgeData.segment_id = some "0_0" :=
  ⟨⟨by decide, by decide, by decide⟩,
    c10_segment_id_restart (0, 0) (1, 0) (2, 0) (10, 0) (11, 0)
      (by decide) (by decide) (by decide) "m" none []⟩
